import Mathlib

/-!
Verification of the statistical core of the A/B-testing notebook
(src/PROJECT_2.ipynb): the Wald confidence-interval helper `proportion_ci`
and the two-sample pooled z-test `proportions_ztest` as called in the
notebook.

Real arithmetic is embedded over ℚ.  The numeric library routines the
notebook calls (`numpy.sqrt`, `scipy.stats.norm.ppf`, the standard normal
CDF Φ used inside `statsmodels`) have no closed rational form, so they are
passed as explicit function parameters `sqrtf`, `ppf`, `cdf`; theorems
assume only the mathematical properties of the real routines that they
need (nonnegativity, monotonicity, `sqrt 0 = 0`, concrete two-sided
enclosures at concrete arguments), and each such theorem has a witness
instantiating the parameters with concrete rational approximations.

Python-level failure is made explicit with `Except`:
`PyError.zeroDivisionError` is Python raising `ZeroDivisionError`
(integer `k / n` with `n = 0`), and `PyError.undefined` stands for the
NaN result that numpy propagates out of `0.0 / 0.0` (a `RuntimeWarning`,
not an exception).
-/

namespace ABTest

/-- Error outcomes of the embedded Python computations: `invalidArgument`
is the validation error the specification prescribes, `zeroDivisionError`
is Python's `ZeroDivisionError`, and `undefined` marks a NaN result
propagated by numpy (division `0.0 / 0.0` inside the z-test). -/
inductive PyError where
  | invalidArgument
  | zeroDivisionError
  | undefined
  deriving DecidableEq

/-- The `alternative` argument of `statsmodels.stats.proportion.proportions_ztest`:
the strings `'larger'`, `'smaller'`, `'two-sided'`. -/
inductive Direction where
  | larger
  | smaller
  | two_sided
  deriving DecidableEq

/-- Embedding of `proportion_ci` from src/PROJECT_2.ipynb (cell 6):

    def proportion_ci(k: int, n: int, alpha: float = 0.05):
        p_hat = k / n
        z = norm.ppf(1 - alpha / 2)
        se = np.sqrt(p_hat * (1 - p_hat) / n)
        half_width = z * se
        return p_hat, p_hat - half_width, p_hat + half_width

`sqrtf` stands for `numpy.sqrt` and `ppf` for `scipy.stats.norm.ppf`.
The function performs no input validation; the only way it can fail is
Python raising `ZeroDivisionError` on `k / n` when `n = 0`. -/
def proportion_ci (sqrtf ppf : ℚ → ℚ) (k n : ℤ) (alpha : ℚ) :
    Except PyError (ℚ × ℚ × ℚ) :=
  if n = 0 then .error .zeroDivisionError
  else
    let p_hat : ℚ := (k : ℚ) / (n : ℚ)
    let z : ℚ := ppf (1 - alpha / 2)
    let se : ℚ := sqrtf (p_hat * (1 - p_hat) / (n : ℚ))
    let half_width : ℚ := z * se
    .ok (p_hat, p_hat - half_width, p_hat + half_width)

/-- Embedding of the two-sample pooled z-test
`statsmodels.stats.proportion.proportions_ztest(count, nobs, alternative)`
exactly as the notebook calls it (cell 10) with
`count = [k1, k2]`, `nobs = [n1, n2]`:

    prop = count / nobs
    diff = prop[0] - prop[1]
    p_pooled = sum(count) / sum(nobs)
    nobs_fact = sum(1 / nobs)
    var_ = p_pooled * (1 - p_pooled) * nobs_fact
    std_diff = sqrt(var_)
    zstat = diff / std_diff
    pvalue: 'larger' ↦ 1 - Φ(zstat); 'smaller' ↦ Φ(zstat);
            'two-sided' ↦ 2 * (1 - Φ(|zstat|))

`sqrtf` stands for `numpy.sqrt` and `cdf` for the standard normal CDF Φ.
When an entry of `nobs` is zero, or when `std_diff = 0` (so `zstat` is
`0.0 / 0.0`), numpy propagates NaN into the returned pair rather than
raising; that NaN outcome is modelled as `.error .undefined`.
The sign convention of the statistic follows the library source and the
output recorded in the notebook (`Z-statistic = -6.655, p-value = 1.0000`
for counts 949 and 1243 over 10000 each): `zstat` compares the FIRST
sample against the second, `zstat = (p̂₁ - p̂₂) / SE`. -/
def proportions_ztest (sqrtf cdf : ℚ → ℚ) (k1 n1 k2 n2 : ℤ)
    (alt : Direction) : Except PyError (ℚ × ℚ) :=
  if n1 = 0 ∨ n2 = 0 then .error .undefined
  else
    let p1 : ℚ := (k1 : ℚ) / (n1 : ℚ)
    let p2 : ℚ := (k2 : ℚ) / (n2 : ℚ)
    let diff : ℚ := p1 - p2
    let p_pooled : ℚ := ((k1 : ℚ) + (k2 : ℚ)) / ((n1 : ℚ) + (n2 : ℚ))
    let nobs_fact : ℚ := 1 / (n1 : ℚ) + 1 / (n2 : ℚ)
    let var_ : ℚ := p_pooled * (1 - p_pooled) * nobs_fact
    let std_diff : ℚ := sqrtf var_
    if std_diff = 0 then .error .undefined
    else
      let zstat : ℚ := diff / std_diff
      let pvalue : ℚ :=
        match alt with
        | .larger => 1 - cdf zstat
        | .smaller => cdf zstat
        | .two_sided => 2 * (1 - cdf |zstat|)
      .ok (zstat, pvalue)

/-- The pooled variance `p̄ (1 - p̄) (1/n₁ + 1/n₂)` computed inside
`proportions_ztest`, exposed for stating theorems about the test. -/
def pooled_var (k1 n1 k2 n2 : ℤ) : ℚ :=
  let p_pooled : ℚ := ((k1 : ℚ) + (k2 : ℚ)) / ((n1 : ℚ) + (n2 : ℚ))
  p_pooled * (1 - p_pooled) * (1 / (n1 : ℚ) + 1 / (n2 : ℚ))

/-- The z-statistic computed by the code: `(p̂₁ - p̂₂) / sqrt(pooled_var)`. -/
def code_z (sqrtf : ℚ → ℚ) (k1 n1 k2 n2 : ℤ) : ℚ :=
  ((k1 : ℚ) / (n1 : ℚ) - (k2 : ℚ) / (n2 : ℚ)) / sqrtf (pooled_var k1 n1 k2 n2)

/-- The p-value computed by the code from a z-statistic `z` and the
direction: `1 - Φ(z)` for 'larger', `Φ(z)` for 'smaller',
`2 (1 - Φ(|z|))` for 'two-sided'. -/
def pval (cdf : ℚ → ℚ) (alt : Direction) (z : ℚ) : ℚ :=
  match alt with
  | .larger => 1 - cdf z
  | .smaller => cdf z
  | .two_sided => 2 * (1 - cdf |z|)

/-- Modelled from the spec's words, for comparison with the code:
the specification's statistic `z = (p̂₂ - p̂₁) / SE` with
`SE = sqrt(p̄ (1 - p̄)(1/n₁ + 1/n₂))` — variant 2 minus variant 1. -/
def spec_z (sqrtf : ℚ → ℚ) (k1 n1 k2 n2 : ℤ) : ℚ :=
  ((k2 : ℚ) / (n2 : ℚ) - (k1 : ℚ) / (n1 : ℚ)) / sqrtf (pooled_var k1 n1 k2 n2)

/-- The constant-zero function on ℚ, used to instantiate the abstract
library parameters in closed statements. -/
def zeroFn : ℚ → ℚ := fun _ => 0

/-- The constant-one function on ℚ, used to instantiate the abstract
library parameters in closed statements. -/
def oneFn : ℚ → ℚ := fun _ => 1

/-- C3: for every k in [0,n], n > 0 and alpha in (0,1), `proportion_ci`
returns point estimate p̂ = k/n and the interval
[p̂ - z·se, p̂ + z·se] with se = sqrt(p̂(1-p̂)/n) and z = ppf(1 - alpha/2)
(`ppf` standing for the inverse standard-normal CDF): the bounds are
exactly p̂ ∓ z·se, in particular not clipped to [0,1]. -/
theorem proportion_ci_wald_formula (sqrtf ppf : ℚ → ℚ) (k n : ℤ) (alpha : ℚ)
    (hn : 0 < n) (hk : 0 ≤ k ∧ k ≤ n) (ha : 0 < alpha ∧ alpha < 1) :
    proportion_ci sqrtf ppf k n alpha =
      .ok ((k : ℚ) / (n : ℚ),
        (k : ℚ) / (n : ℚ) -
          ppf (1 - alpha / 2) *
            sqrtf ((k : ℚ) / (n : ℚ) * (1 - (k : ℚ) / (n : ℚ)) / (n : ℚ)),
        (k : ℚ) / (n : ℚ) +
          ppf (1 - alpha / 2) *
            sqrtf ((k : ℚ) / (n : ℚ) * (1 - (k : ℚ) / (n : ℚ)) / (n : ℚ))) := by
  rw [proportion_ci, if_neg hn.ne']

/-- Witness for C3 at k = 1, n = 4, alpha = 1/20 with concrete library
stand-ins. -/
theorem proportion_ci_wald_formula_witness :
    (0 < (4 : ℤ) ∧ (0 ≤ (1 : ℤ) ∧ (1 : ℤ) ≤ 4) ∧
      (0 < (1 : ℚ)/20 ∧ (1 : ℚ)/20 < 1)) ∧
    proportion_ci oneFn oneFn 1 4 (1/20) =
      .ok ((1 : ℚ)/4, (1 : ℚ)/4 - 1 * 1, (1 : ℚ)/4 + 1 * 1) := by
  refine ⟨by norm_num, ?_⟩
  have h := proportion_ci_wald_formula oneFn oneFn 1 4 (1/20)
    (by norm_num) (by norm_num) (by norm_num)
  simpa [oneFn] using h

/-- C6: for every valid input the interval is exactly symmetric around
the point estimate: point_estimate - lower_bound = upper_bound -
point_estimate (the ℚ embedding gives exact equality, which is within any
floating-point tolerance). -/
theorem proportion_ci_symmetric (sqrtf ppf : ℚ → ℚ) (k n : ℤ) (alpha : ℚ)
    (hn : 0 < n) (hk : 0 ≤ k ∧ k ≤ n) (ha : 0 < alpha ∧ alpha < 1) :
    ∃ p lo hi : ℚ, proportion_ci sqrtf ppf k n alpha = .ok (p, lo, hi) ∧
      p - lo = hi - p := by
  rw [proportion_ci, if_neg hn.ne']
  exact ⟨_, _, _, rfl, by ring⟩

/-- Witness for C6 at k = 1, n = 4, alpha = 1/20. -/
theorem proportion_ci_symmetric_witness :
    (0 < (4 : ℤ) ∧ (0 ≤ (1 : ℤ) ∧ (1 : ℤ) ≤ 4) ∧
      (0 < (1 : ℚ)/20 ∧ (1 : ℚ)/20 < 1)) ∧
    ∃ p lo hi : ℚ, proportion_ci oneFn oneFn 1 4 (1/20) = .ok (p, lo, hi) ∧
      p - lo = hi - p :=
  ⟨by norm_num,
    proportion_ci_symmetric oneFn oneFn 1 4 (1/20)
      (by norm_num) (by norm_num) (by norm_num)⟩

/-- C10: for every n > 0 and alpha in (0,1), at k = 0 and at k = n the
estimated standard error sqrt(p̂(1-p̂)/n) is sqrt 0 = 0, so the interval
collapses onto the point estimate: (0,0,0) for k = 0 and (1,1,1) for
k = n. Hypothesis `hs0` is the library fact `numpy.sqrt 0 = 0`. -/
theorem proportion_ci_degenerate (sqrtf ppf : ℚ → ℚ) (n : ℤ) (alpha : ℚ)
    (hn : 0 < n) (ha : 0 < alpha ∧ alpha < 1) (hs0 : sqrtf 0 = 0) :
    proportion_ci sqrtf ppf 0 n alpha = .ok (0, 0, 0) ∧
    proportion_ci sqrtf ppf n n alpha = .ok (1, 1, 1) := by
  have hn0 : (n : ℚ) ≠ 0 := Int.cast_ne_zero.mpr hn.ne'
  constructor
  · rw [proportion_ci, if_neg hn.ne']
    simp [hs0]
  · rw [proportion_ci, if_neg hn.ne']
    simp only [Int.cast_natCast]
    rw [div_self hn0]
    simp [hs0]

/-- Witness for C10 at n = 4, alpha = 1/20, with `zeroFn` standing in for
`numpy.sqrt` (it agrees with it at 0). -/
theorem proportion_ci_degenerate_witness :
    (0 < (4 : ℤ) ∧ (0 < (1 : ℚ)/20 ∧ (1 : ℚ)/20 < 1) ∧ zeroFn 0 = 0) ∧
    proportion_ci zeroFn oneFn 0 4 (1/20) = .ok (0, 0, 0) ∧
    proportion_ci zeroFn oneFn 4 4 (1/20) = .ok (1, 1, 1) :=
  ⟨⟨by norm_num, by norm_num, rfl⟩,
    proportion_ci_degenerate zeroFn oneFn 4 (1/20)
      (by norm_num) (by norm_num) rfl⟩

/-- C5: for every valid input (k in [0,n], n > 0, alpha in (0,1)) the
returned triple satisfies lower_bound ≤ point_estimate ≤ upper_bound.
Hypotheses `hsq` and `hppf` are facts of the real library routines:
`numpy.sqrt` is nonnegative on nonnegative arguments, and
`norm.ppf q ≥ 0` for q ≥ 1/2 (here q = 1 - alpha/2 > 1/2). -/
theorem proportion_ci_ordered (sqrtf ppf : ℚ → ℚ) (k n : ℤ) (alpha : ℚ)
    (hn : 0 < n) (hk : 0 ≤ k ∧ k ≤ n) (ha : 0 < alpha ∧ alpha < 1)
    (hsq : ∀ x : ℚ, 0 ≤ x → 0 ≤ sqrtf x)
    (hppf : ∀ q : ℚ, 1/2 ≤ q → 0 ≤ ppf q) :
    ∃ p lo hi : ℚ, proportion_ci sqrtf ppf k n alpha = .ok (p, lo, hi) ∧
      lo ≤ p ∧ p ≤ hi := by
  have hnq : (0 : ℚ) < (n : ℚ) := by exact_mod_cast hn
  have hp0 : (0 : ℚ) ≤ (k : ℚ) / (n : ℚ) :=
    div_nonneg (by exact_mod_cast hk.1) hnq.le
  have hp1 : (k : ℚ) / (n : ℚ) ≤ 1 := by
    rw [div_le_one hnq]; exact_mod_cast hk.2
  have harg : (0 : ℚ) ≤ (k : ℚ) / (n : ℚ) * (1 - (k : ℚ) / (n : ℚ)) / (n : ℚ) :=
    div_nonneg (mul_nonneg hp0 (by linarith)) hnq.le
  have hhalf : (0 : ℚ) ≤ ppf (1 - alpha / 2) *
      sqrtf ((k : ℚ) / (n : ℚ) * (1 - (k : ℚ) / (n : ℚ)) / (n : ℚ)) :=
    mul_nonneg (hppf _ (by linarith [ha.2])) (hsq _ harg)
  rw [proportion_ci, if_neg hn.ne']
  exact ⟨_, _, _, rfl, by linarith, by linarith⟩

/-- Witness for C5 at k = 1, n = 4, alpha = 1/20, with the constant-one
function standing in for both library routines. -/
theorem proportion_ci_ordered_witness :
    ((0 < (4 : ℤ) ∧ (0 ≤ (1 : ℤ) ∧ (1 : ℤ) ≤ 4) ∧
        (0 < (1 : ℚ)/20 ∧ (1 : ℚ)/20 < 1)) ∧
      (∀ x : ℚ, 0 ≤ x → 0 ≤ oneFn x) ∧ (∀ q : ℚ, 1/2 ≤ q → 0 ≤ oneFn q)) ∧
    ∃ p lo hi : ℚ, proportion_ci oneFn oneFn 1 4 (1/20) = .ok (p, lo, hi) ∧
      lo ≤ p ∧ p ≤ hi :=
  ⟨⟨by norm_num, fun x _ => by norm_num [oneFn], fun q _ => by norm_num [oneFn]⟩,
    proportion_ci_ordered oneFn oneFn 1 4 (1/20) (by norm_num) (by norm_num)
      (by norm_num) (fun x _ => by norm_num [oneFn])
      (fun q _ => by norm_num [oneFn])⟩

/-- C7: for a fixed k in [0,n], n > 0, and significance levels
alpha1 < alpha2 in (0,1), the interval at alpha1 is at least as wide as
the interval at alpha2. Hypotheses: `numpy.sqrt` is nonnegative on
nonnegative arguments and `norm.ppf` is monotone on [1/2, 1). -/
theorem proportion_ci_alpha_monotone (sqrtf ppf : ℚ → ℚ) (k n : ℤ)
    (alpha1 alpha2 : ℚ) (hn : 0 < n) (hk : 0 ≤ k ∧ k ≤ n)
    (ha1 : 0 < alpha1) (h12 : alpha1 < alpha2) (ha2 : alpha2 < 1)
    (hsq : ∀ x : ℚ, 0 ≤ x → 0 ≤ sqrtf x)
    (hmono : ∀ q r : ℚ, 1/2 ≤ q → q ≤ r → ppf q ≤ ppf r) :
    ∃ p lo1 hi1 lo2 hi2 : ℚ,
      proportion_ci sqrtf ppf k n alpha1 = .ok (p, lo1, hi1) ∧
      proportion_ci sqrtf ppf k n alpha2 = .ok (p, lo2, hi2) ∧
      hi2 - lo2 ≤ hi1 - lo1 := by
  have hnq : (0 : ℚ) < (n : ℚ) := by exact_mod_cast hn
  have hp0 : (0 : ℚ) ≤ (k : ℚ) / (n : ℚ) :=
    div_nonneg (by exact_mod_cast hk.1) hnq.le
  have hp1 : (k : ℚ) / (n : ℚ) ≤ 1 := by
    rw [div_le_one hnq]; exact_mod_cast hk.2
  have harg : (0 : ℚ) ≤ (k : ℚ) / (n : ℚ) * (1 - (k : ℚ) / (n : ℚ)) / (n : ℚ) :=
    div_nonneg (mul_nonneg hp0 (by linarith)) hnq.le
  have hse : (0 : ℚ) ≤
      sqrtf ((k : ℚ) / (n : ℚ) * (1 - (k : ℚ) / (n : ℚ)) / (n : ℚ)) :=
    hsq _ harg
  have hq : ppf (1 - alpha2 / 2) ≤ ppf (1 - alpha1 / 2) :=
    hmono _ _ (by linarith) (by linarith)
  rw [proportion_ci, if_neg hn.ne', proportion_ci, if_neg hn.ne']
  refine ⟨_, _, _, _, _, rfl, rfl, ?_⟩
  have := mul_le_mul_of_nonneg_right hq hse
  linarith

/-- Witness for C7 at k = 1, n = 4, alpha1 = 1/100, alpha2 = 1/20. -/
theorem proportion_ci_alpha_monotone_witness :
    ((0 < (4 : ℤ) ∧ (0 ≤ (1 : ℤ) ∧ (1 : ℤ) ≤ 4) ∧ 0 < (1 : ℚ)/100 ∧
        (1 : ℚ)/100 < 1/20 ∧ (1 : ℚ)/20 < 1) ∧
      (∀ x : ℚ, 0 ≤ x → 0 ≤ oneFn x) ∧
      (∀ q r : ℚ, 1/2 ≤ q → q ≤ r → oneFn q ≤ oneFn r)) ∧
    ∃ p lo1 hi1 lo2 hi2 : ℚ,
      proportion_ci oneFn oneFn 1 4 (1/100) = .ok (p, lo1, hi1) ∧
      proportion_ci oneFn oneFn 1 4 (1/20) = .ok (p, lo2, hi2) ∧
      hi2 - lo2 ≤ hi1 - lo1 :=
  ⟨⟨by norm_num, fun x _ => by norm_num [oneFn],
      fun q r _ _ => by norm_num [oneFn]⟩,
    proportion_ci_alpha_monotone oneFn oneFn 1 4 (1/100) (1/20)
      (by norm_num) (by norm_num) (by norm_num) (by norm_num) (by norm_num)
      (fun x _ => by norm_num [oneFn]) (fun q r _ _ => by norm_num [oneFn])⟩

/-- C8 counterexample: on the invalid input k = 2, n = 1 (k outside
[0,n]), alpha = 1/20, `proportion_ci` does NOT fail with InvalidArgument:
it returns a value (with se = sqrt of a negative argument, here under the
concrete stand-in `zeroFn` for `numpy.sqrt`). -/
theorem proportion_ci_no_validation_counterexample :
    proportion_ci zeroFn zeroFn 2 1 (1/20) = .ok (2, 2, 2) ∧
    proportion_ci zeroFn zeroFn 2 1 (1/20) ≠ .error .invalidArgument := by
  constructor
  · rw [proportion_ci, if_neg (by norm_num : (1 : ℤ) ≠ 0)]
    norm_num [zeroFn]
  · rw [proportion_ci, if_neg (by norm_num : (1 : ℤ) ≠ 0)]
    simp

/-- C8 amended: `proportion_ci` performs no input validation and never
reports InvalidArgument. When n = 0 it fails with Python's
ZeroDivisionError (from computing k / n); for every other input —
including k outside [0,n], negative n, and alpha outside (0,1) — it
returns a result triple without signalling any error. -/
theorem proportion_ci_no_validation (sqrtf ppf : ℚ → ℚ) (k n : ℤ)
    (alpha : ℚ) :
    (n = 0 → proportion_ci sqrtf ppf k n alpha = .error .zeroDivisionError) ∧
    (n ≠ 0 → ∃ t : ℚ × ℚ × ℚ, proportion_ci sqrtf ppf k n alpha = .ok t) := by
  constructor
  · intro h0
    rw [proportion_ci, if_pos h0]
  · intro h0
    rw [proportion_ci, if_neg h0]
    exact ⟨_, rfl⟩

/-- Witness for C8 amended: both branches instantiated — n = 0 raises
ZeroDivisionError, and the invalid input k = 2, n = 1 still returns a
value. -/
theorem proportion_ci_no_validation_witness :
    proportion_ci zeroFn zeroFn 5 0 (1/20) = .error .zeroDivisionError ∧
    ∃ t : ℚ × ℚ × ℚ, proportion_ci zeroFn zeroFn 2 1 (1/20) = .ok t :=
  ⟨(proportion_ci_no_validation zeroFn zeroFn 5 0 (1/20)).1 rfl,
    (proportion_ci_no_validation zeroFn zeroFn 2 1 (1/20)).2 (by norm_num)⟩

/-- Helper: when both sample sizes are nonzero and the computed pooled
standard deviation is nonzero, `proportions_ztest` succeeds and returns
the statistic `code_z` and the p-value `pval`. -/
theorem ztest_ok_eq (sqrtf cdf : ℚ → ℚ) (k1 n1 k2 n2 : ℤ) (alt : Direction)
    (h1 : n1 ≠ 0) (h2 : n2 ≠ 0)
    (hse : sqrtf (pooled_var k1 n1 k2 n2) ≠ 0) :
    proportions_ztest sqrtf cdf k1 n1 k2 n2 alt =
      .ok (code_z sqrtf k1 n1 k2 n2,
           pval cdf alt (code_z sqrtf k1 n1 k2 n2)) := by
  simp only [pooled_var] at hse
  simp only [proportions_ztest, code_z, pval, pooled_var]
  rw [if_neg (not_or.mpr ⟨h1, h2⟩), if_neg hse]

/-- C9: on the degenerate observations k₁ = k₂ = 0 with n₁ = n₂ = 100 the
pooled variance is 0, so `zstat` is the numpy division 0.0 / 0.0; the
tester yields the explicitly propagated NaN pair (modelled as
`.error .undefined`) instead of raising an unhandled arithmetic fault.
Hypothesis `hs0` is the library fact `numpy.sqrt 0 = 0`. -/
theorem proportions_ztest_degenerate (sqrtf cdf : ℚ → ℚ) (alt : Direction)
    (hs0 : sqrtf 0 = 0) :
    proportions_ztest sqrtf cdf 0 100 0 100 alt = .error .undefined := by
  simp only [proportions_ztest]
  rw [if_neg (by norm_num)]
  norm_num [hs0]

/-- Witness for C9, with `zeroFn` standing in for `numpy.sqrt` (it agrees
with it at 0) and direction 'larger'. -/
theorem proportions_ztest_degenerate_witness :
    zeroFn 0 = 0 ∧
    proportions_ztest zeroFn oneFn 0 100 0 100 .larger =
      .error .undefined :=
  ⟨rfl, proportions_ztest_degenerate zeroFn oneFn .larger rfl⟩

/-- C2 counterexample: the tester's statistic is NOT the spec's
z = (p̂₂ - p̂₁)/SE. At k₁ = 0, n₁ = 1, k₂ = 1, n₂ = 1 with `oneFn`
standing in for sqrt (SE = 1) the code returns statistic -1 while the
spec's formula gives +1. -/
theorem proportions_ztest_sign_counterexample :
    proportions_ztest oneFn zeroFn 0 1 1 1 .larger = .ok (-1, 1) ∧
    spec_z oneFn 0 1 1 1 = 1 ∧ ((-1 : ℚ) ≠ 1) := by
  refine ⟨?_, by norm_num [spec_z, pooled_var, oneFn], by norm_num⟩
  simp only [proportions_ztest]
  rw [if_neg (by norm_num)]
  norm_num [oneFn, zeroFn]

/-- C2 amended: for n₁ > 0, n₂ > 0 and nondegenerate pooled standard
error SE = sqrt(p̄(1-p̄)(1/n₁+1/n₂)) > 0, the tester's statistic is
z = (p̂₁ - p̂₂)/SE — the OPPOSITE sign convention to the spec: positive z
means variant 1's observed rate exceeds variant 2's. For 'larger'
p_value = 1 - Φ(z), for 'smaller' it is Φ(z), and for 'two-sided' it is
2(1 - Φ(|z|)), where z is this first-minus-second statistic. -/
theorem proportions_ztest_amended (sqrtf cdf : ℚ → ℚ) (k1 n1 k2 n2 : ℤ)
    (alt : Direction) (h1 : 0 < n1) (h2 : 0 < n2)
    (hse : 0 < sqrtf (pooled_var k1 n1 k2 n2)) :
    proportions_ztest sqrtf cdf k1 n1 k2 n2 alt =
      .ok (code_z sqrtf k1 n1 k2 n2,
           pval cdf alt (code_z sqrtf k1 n1 k2 n2)) ∧
    (0 < code_z sqrtf k1 n1 k2 n2 ↔
      (k2 : ℚ) / (n2 : ℚ) < (k1 : ℚ) / (n1 : ℚ)) := by
  refine ⟨ztest_ok_eq sqrtf cdf k1 n1 k2 n2 alt h1.ne' h2.ne' hse.ne', ?_⟩
  rw [code_z, div_pos_iff]
  constructor
  · rintro (⟨h, -⟩ | ⟨-, hb⟩)
    · exact sub_pos.mp h
    · exact absurd hse (asymm hb)
  · intro h
    exact Or.inl ⟨sub_pos.mpr h, hse⟩

/-- Witness for C2 amended at k₁ = 1, n₁ = 2, k₂ = 0, n₂ = 2 with
concrete library stand-ins. -/
theorem proportions_ztest_amended_witness :
    (0 < (2 : ℤ) ∧ 0 < oneFn (pooled_var 1 2 0 2)) ∧
    (proportions_ztest oneFn zeroFn 1 2 0 2 .larger =
      .ok (code_z oneFn 1 2 0 2,
           pval zeroFn .larger (code_z oneFn 1 2 0 2)) ∧
     (0 < code_z oneFn 1 2 0 2 ↔ (0 : ℚ) / (2 : ℚ) < (1 : ℚ) / (2 : ℚ))) := by
  refine ⟨⟨by norm_num, by norm_num [oneFn]⟩, ?_⟩
  have h := proportions_ztest_amended oneFn zeroFn 1 2 0 2 .larger
    (by norm_num) (by norm_num) (by norm_num [oneFn])
  simpa using h

/-- C1 (code bug): on the notebook's recorded observations k₁ = 949,
n₁ = 10000, k₂ = 1243, n₂ = 10000 with alternative 'larger', the tester
returns a NEGATIVE statistic and a p-value ≥ 1/2 — not the claimed
p < 0.0001. (The notebook's own output records z = -6.655, p = 1.0000.)
Hypotheses are library facts: sqrt of the concrete pooled variance is
positive, and Φ(x) ≤ 1/2 for x ≤ 0. -/
theorem proportions_ztest_scenario3_divergence (sqrtf cdf : ℚ → ℚ)
    (hs : 0 < sqrtf (152481 / 7812500000))
    (hc : ∀ x : ℚ, x ≤ 0 → cdf x ≤ 1/2) :
    ∃ z p : ℚ,
      proportions_ztest sqrtf cdf 949 10000 1243 10000 .larger =
        .ok (z, p) ∧ z < 0 ∧ 1/2 ≤ p := by
  have hv : pooled_var 949 10000 1243 10000 = 152481 / 7812500000 := by
    norm_num [pooled_var]
  have hs0 : 0 < sqrtf (pooled_var 949 10000 1243 10000) := by
    rw [hv]; exact hs
  have hz : code_z sqrtf 949 10000 1243 10000 < 0 := by
    rw [code_z]
    apply div_neg_of_neg_of_pos _ hs0
    norm_num
  refine ⟨_, _, ztest_ok_eq sqrtf cdf 949 10000 1243 10000 .larger
    (by norm_num) (by norm_num) hs0.ne', hz, ?_⟩
  have := hc _ hz.le
  simp only [pval]
  linarith

/-- Witness for C1's divergence theorem, with concrete library
stand-ins. -/
theorem proportions_ztest_scenario3_divergence_witness :
    (0 < oneFn (152481 / 7812500000) ∧
      (∀ x : ℚ, x ≤ 0 → zeroFn x ≤ 1/2)) ∧
    ∃ z p : ℚ,
      proportions_ztest oneFn zeroFn 949 10000 1243 10000 .larger =
        .ok (z, p) ∧ z < 0 ∧ 1/2 ≤ p :=
  ⟨⟨by norm_num [oneFn], fun x _ => by norm_num [zeroFn]⟩,
    proportions_ztest_scenario3_divergence oneFn zeroFn
      (by norm_num [oneFn]) (fun x _ => by norm_num [zeroFn])⟩

/-- A concrete rational stand-in for `numpy.sqrt` at the two standard
error arguments of the notebook's scenarios, used by witnesses. -/
def sqrtW : ℚ → ℚ := fun x =>
  if x = 8589399 / 1000000000000 then 0.0029307676 else 0.0032992350

/-- A concrete rational stand-in for `scipy.stats.norm.ppf` near 0.975
(the real value is 1.959963984540054...), used by witnesses. -/
def ppfW : ℚ → ℚ := fun _ => 1.959964

/-- C4: on k = 949, n = 10000, alpha = 1/20 the estimator returns point
estimate 0.0949 and bounds within 10⁻⁵ of [0.089156, 0.100644], and on
k = 1243, n = 10000, alpha = 1/20 it returns 0.1243 and bounds within
10⁻⁵ of [0.117834, 0.130766]. The hypotheses are two-sided rational
enclosures of the real library values `norm.ppf(0.975)` and the two
square roots `sqrt(0.0949·0.9051/10000)`, `sqrt(0.1243·0.8757/10000)`. -/
theorem proportion_ci_scenarios (sqrtf ppf : ℚ → ℚ)
    (hz1 : 1.959963 ≤ ppf (39/40)) (hz2 : ppf (39/40) ≤ 1.959965)
    (hs11 : 0.0029307675 ≤ sqrtf (8589399 / 1000000000000))
    (hs12 : sqrtf (8589399 / 1000000000000) ≤ 0.0029307680)
    (hs21 : 0.0032992349 ≤ sqrtf (10884951 / 1000000000000))
    (hs22 : sqrtf (10884951 / 1000000000000) ≤ 0.0032992354) :
    ∃ lo1 hi1 lo2 hi2 : ℚ,
      proportion_ci sqrtf ppf 949 10000 (1/20) =
        .ok (949/10000, lo1, hi1) ∧
      proportion_ci sqrtf ppf 1243 10000 (1/20) =
        .ok (1243/10000, lo2, hi2) ∧
      |lo1 - 0.089156| ≤ 1/100000 ∧ |hi1 - 0.100644| ≤ 1/100000 ∧
      |lo2 - 0.117834| ≤ 1/100000 ∧ |hi2 - 0.130766| ≤ 1/100000 := by
  have hu0 : (0 : ℚ) ≤ ppf (39/40) := le_trans (by norm_num) hz1
  have hw1l : (1.959963 : ℚ) * 0.0029307675 ≤
      ppf (39/40) * sqrtf (8589399 / 1000000000000) :=
    mul_le_mul hz1 hs11 (by norm_num) hu0
  have hw1h : ppf (39/40) * sqrtf (8589399 / 1000000000000) ≤
      (1.959965 : ℚ) * 0.0029307680 :=
    mul_le_mul hz2 hs12 (le_trans (by norm_num) hs11) (by norm_num)
  have hw2l : (1.959963 : ℚ) * 0.0032992349 ≤
      ppf (39/40) * sqrtf (10884951 / 1000000000000) :=
    mul_le_mul hz1 hs21 (by norm_num) hu0
  have hw2h : ppf (39/40) * sqrtf (10884951 / 1000000000000) ≤
      (1.959965 : ℚ) * 0.0032992354 :=
    mul_le_mul hz2 hs22 (le_trans (by norm_num) hs21) (by norm_num)
  have e1 : proportion_ci sqrtf ppf 949 10000 (1/20) =
      .ok (949/10000,
        949/10000 - ppf (39/40) * sqrtf (8589399 / 1000000000000),
        949/10000 + ppf (39/40) * sqrtf (8589399 / 1000000000000)) := by
    rw [proportion_ci, if_neg (by norm_num : (10000 : ℤ) ≠ 0)]
    norm_num
  have e2 : proportion_ci sqrtf ppf 1243 10000 (1/20) =
      .ok (1243/10000,
        1243/10000 - ppf (39/40) * sqrtf (10884951 / 1000000000000),
        1243/10000 + ppf (39/40) * sqrtf (10884951 / 1000000000000)) := by
    rw [proportion_ci, if_neg (by norm_num : (10000 : ℤ) ≠ 0)]
    norm_num
  refine ⟨_, _, _, _, e1, e2, ?_, ?_, ?_, ?_⟩ <;>
    rw [abs_le] <;> constructor <;> linarith

/-- Witness for C4: the concrete rational library stand-ins `sqrtW` and
`ppfW` satisfy the enclosures, and the instantiated conclusion holds. -/
theorem proportion_ci_scenarios_witness :
    ((1.959963 ≤ ppfW (39/40) ∧ ppfW (39/40) ≤ 1.959965) ∧
      (0.0029307675 ≤ sqrtW (8589399 / 1000000000000) ∧
        sqrtW (8589399 / 1000000000000) ≤ 0.0029307680) ∧
      (0.0032992349 ≤ sqrtW (10884951 / 1000000000000) ∧
        sqrtW (10884951 / 1000000000000) ≤ 0.0032992354)) ∧
    ∃ lo1 hi1 lo2 hi2 : ℚ,
      proportion_ci sqrtW ppfW 949 10000 (1/20) =
        .ok (949/10000, lo1, hi1) ∧
      proportion_ci sqrtW ppfW 1243 10000 (1/20) =
        .ok (1243/10000, lo2, hi2) ∧
      |lo1 - 0.089156| ≤ 1/100000 ∧ |hi1 - 0.100644| ≤ 1/100000 ∧
      |lo2 - 0.117834| ≤ 1/100000 ∧ |hi2 - 0.130766| ≤ 1/100000 :=
  ⟨⟨by norm_num [ppfW], by norm_num [sqrtW], by norm_num [sqrtW]⟩,
    proportion_ci_scenarios sqrtW ppfW
      (by norm_num [ppfW]) (by norm_num [ppfW])
      (by norm_num [sqrtW]) (by norm_num [sqrtW])
      (by norm_num [sqrtW]) (by norm_num [sqrtW])⟩

end ABTest
